import Mathlib

/-!
Shallow embedding of the `notifica` crate (src/src/lib.rs): a compile-time
platform switch around three native desktop-notification facilities, plus an
error union.  The native libraries (winrt, mac-notification-sys, notify-rust)
are external black boxes: each native call is represented by an oracle field
holding the result the environment would return, and every operation is
instrumented to return the list of native calls it performed, so that ordering
and propagation claims can be stated.  Machine behaviour that Rust expresses
as a panic (an `.unwrap()` of a failing result) is the `panicked` outcome.
-/

namespace Notifica

/-- Compile-time target platform: models the mutually exclusive
`#[cfg(target_os = ...)]` selection in src/src/lib.rs.  Exactly one value is
fixed per build; it is a build constant, not a runtime input. -/
inductive Os
  | windows
  | macos
  | linux
deriving DecidableEq

/-- Native error of the Linux backend (`notify_rust::error::Error`, imported
as `LError`).  The library is external; the embedding keeps only its
observable `Display` message. -/
structure LError where
  msg : String
deriving DecidableEq

/-- Native error of the macOS bundle-identity calls
(`mac_notification_sys::error::ApplicationError`).  External; the embedding
keeps only its `Display` message. -/
structure ApplicationError where
  msg : String
deriving DecidableEq

/-- Native error of the macOS notification send
(`mac_notification_sys::error::NotificationError`).  External; the embedding
keeps only its `Display` message. -/
structure NotificationError where
  msg : String
deriving DecidableEq

/-- Modelled from the spec: the native Windows error type (`winrt::Error`,
imported as `WError`) of the external winrt crate.  The spec treats it as
having no message form; its only textual rendering is the derived `Debug`
formatting, a fixed descriptive string per error value (`WError.debugFmt`
below). -/
inductive WError
  | operationAborted
  | accessDenied
  | unspecifiedFailure
  | outOfMemory
  | invalidArgument
  | objectClosed
deriving DecidableEq

/-- Modelled from the spec: the derived `Debug` rendering of `winrt::Error`,
what `write!(fmt, "{:?}", e)` prints.  A fixed descriptive string for each
error value; `WError` carries no message text. -/
def WError.debugFmt : WError → String
  | WError.operationAborted => "OperationAborted"
  | WError.accessDenied => "AccessDenied"
  | WError.unspecifiedFailure => "UnspecifiedFailure"
  | WError.outOfMemory => "OutOfMemory"
  | WError.invalidArgument => "InvalidArgument"
  | WError.objectClosed => "ObjectClosed"

/-- The macOS sub-error union `enum MacOsError` of src/src/lib.rs: the
application-identity sub-kind wraps `ApplicationError`, the send sub-kind
wraps `NotificationError`. -/
inductive MacOsError
  | AppErr (e : ApplicationError)
  | NotErr (e : NotificationError)
deriving DecidableEq

/-- Display for `MacOsError` (src/src/lib.rs): each sub-kind delegates to the
wrapped native error. -/
def MacOsError.fmt : MacOsError → String
  | MacOsError.AppErr e => e.msg
  | MacOsError.NotErr e => e.msg

/-- The private error union `enum ErrorRepr` of src/src/lib.rs, one variant
per compiled-in backend.  The `cfg` attributes make the variants mutually
exclusive per build; the embedding carries all three so every build can be
reasoned about. -/
inductive ErrorRepr
  | Linux (e : LError)
  | MacOs (e : MacOsError)
  | Windows (e : WError)
deriving DecidableEq

/-- Display for `ErrorRepr` (src/src/lib.rs): the Linux and macOS variants
render the native `Display` message (`write!(fmt, "{}", e)`), the Windows
variant renders the native `Debug` formatting (`write!(fmt, "{:?}", e)`). -/
def ErrorRepr.fmt : ErrorRepr → String
  | ErrorRepr.Linux e => e.msg
  | ErrorRepr.MacOs e => e.fmt
  | ErrorRepr.Windows e => e.debugFmt

/-- The public error type `pub struct Error(ErrorRepr)` of src/src/lib.rs. -/
structure Error where
  inner : ErrorRepr
deriving DecidableEq

/-- Display for `Error` (src/src/lib.rs): delegates to the wrapped
`ErrorRepr`. -/
def Error.fmt (e : Error) : String :=
  e.inner.fmt

/-- Conversion `From<ApplicationError> for MacOsError` (src/src/lib.rs). -/
def MacOsError.ofApplicationError (e : ApplicationError) : MacOsError :=
  MacOsError.AppErr e

/-- Conversion `From<NotificationError> for MacOsError` (src/src/lib.rs). -/
def MacOsError.ofNotificationError (e : NotificationError) : MacOsError :=
  MacOsError.NotErr e

/-- Conversion `From<ApplicationError> for ErrorRepr` (src/src/lib.rs). -/
def ErrorRepr.ofApplicationError (e : ApplicationError) : ErrorRepr :=
  ErrorRepr.MacOs (MacOsError.ofApplicationError e)

/-- Conversion `From<NotificationError> for ErrorRepr` (src/src/lib.rs). -/
def ErrorRepr.ofNotificationError (e : NotificationError) : ErrorRepr :=
  ErrorRepr.MacOs (MacOsError.ofNotificationError e)

/-- Conversion `From<LError> for ErrorRepr` (src/src/lib.rs). -/
def ErrorRepr.ofLError (e : LError) : ErrorRepr :=
  ErrorRepr.Linux e

/-- Conversion `From<WError> for ErrorRepr` (src/src/lib.rs). -/
def ErrorRepr.ofWError (e : WError) : ErrorRepr :=
  ErrorRepr.Windows e

/-- Outcome of one backend `notify` body: `ok` and `err` are the two values
of its `Result<(), ErrorRepr>` return type; `panicked` is the Rust panic an
`.unwrap()` of a failing native result raises, which is not a return value at
all. -/
inductive ExecResult
  | ok
  | err (e : ErrorRepr)
  | panicked
deriving DecidableEq

/-- The toast template selector passed to `get_template_content`
(src/src/lib.rs uses `ToastTemplateType::ToastText02`). -/
inductive ToastTemplateType
  | toastText02
deriving DecidableEq

/-- Native calls the Windows backend issues, in the vocabulary of
`Windows::notify` (src/src/lib.rs).  Each constructor records the data the
call receives that derives from the callers input or from fixed program
constants: `createTextNode` the node text, `appendChild` the template slot
index together with the text of the appended node, `createToastNotifierWithId`
the application id string. -/
inductive WinCall
  | getTemplateContent (template : ToastTemplateType)
  | getElementsByTagName (tag : String)
  | item (index : Nat)
  | createTextNode (text : String)
  | queryInterface
  | appendChild (slotIndex : Nat) (text : String)
  | createToastNotification
  | createToastNotifierWithId (appId : String)
  | showToast
deriving DecidableEq

/-- The fixed application identifier string `Windows::notify` registers its
toast notifier under (src/src/lib.rs). -/
def windowsAppId : String :=
  "\x7b1AC14E77-02E7-4E5D-B744-2EB1AE5198B7\x7d\\WindowsPowerShell\\v1.0\\powershell.exe"

/-- Results the environment returns for each native call of
`Windows::notify`, in program order.  A field of type
`Except WError (Option Unit)` models a winrt call returning
`Result<Option<T>>` (the source applies `?` and then `.unwrap()` to it);
`Except WError Unit` models `Result<T>` used with `?` alone; `Option Unit`
models the `query_interface` call used with `.unwrap()` alone.  Payload
values are opaque to the program, hence `Unit`. -/
structure WinOracle where
  getTemplateContent : Except WError (Option Unit)
  getElementsByTagName : Except WError (Option Unit)
  item0 : Except WError (Option Unit)
  createTextNodeTitle : Except WError (Option Unit)
  queryInterfaceTitle : Option Unit
  appendChild0 : Except WError Unit
  item1 : Except WError (Option Unit)
  createTextNodeBody : Except WError (Option Unit)
  queryInterfaceBody : Option Unit
  appendChild1 : Except WError Unit
  createToastNotification : Except WError Unit
  createToastNotifierWithId : Except WError (Option Unit)
  showCall : Except WError Unit

/-- The Rust pattern `native_call()?.unwrap()` on a `Result<Option<T>>`: the
`?` converts a native `WError` through `From<WError> for ErrorRepr` and
returns it, the `.unwrap()` panics on a null (`None`) payload, and otherwise
execution continues.  `tr` is the trace so far, `c` the call performed, `k`
the continuation. -/
def Windows.qmUnwrap (tr : List WinCall) (c : WinCall) (r : Except WError (Option Unit))
    (k : List WinCall → List WinCall × ExecResult) : List WinCall × ExecResult :=
  match r with
  | Except.error e => (tr ++ [c], ExecResult.err (ErrorRepr.Windows e))
  | Except.ok none => (tr ++ [c], ExecResult.panicked)
  | Except.ok (some _) => k (tr ++ [c])

/-- The Rust pattern `native_call()?` on a `Result<T>`: the `?` converts a
native `WError` through `From<WError> for ErrorRepr` and returns it,
otherwise execution continues. -/
def Windows.qm (tr : List WinCall) (c : WinCall) (r : Except WError Unit)
    (k : List WinCall → List WinCall × ExecResult) : List WinCall × ExecResult :=
  match r with
  | Except.error e => (tr ++ [c], ExecResult.err (ErrorRepr.Windows e))
  | Except.ok _ => k (tr ++ [c])

/-- The Rust pattern `native_call().unwrap()` on an `Option<T>`
(`query_interface`): panics on `None`, otherwise continues. -/
def Windows.unwrapOpt (tr : List WinCall) (c : WinCall) (r : Option Unit)
    (k : List WinCall → List WinCall × ExecResult) : List WinCall × ExecResult :=
  match r with
  | none => (tr ++ [c], ExecResult.panicked)
  | some _ => k (tr ++ [c])

/-- The body of `Windows::notify` (src/src/lib.rs), call for call and in
source order (Rust evaluates a method receiver before the method arguments,
so each `item` call precedes the `create_text_node` call of the same line):
template retrieval, element lookup, then for each of title and body a node
creation, interface query and insertion into slot 0 respectively slot 1, then
toast creation, notifier creation under the fixed id, and show. -/
def Windows.notify (t b : String) (o : WinOracle) : List WinCall × ExecResult :=
  Windows.qmUnwrap [] (WinCall.getTemplateContent ToastTemplateType.toastText02)
    o.getTemplateContent fun tr =>
  Windows.qmUnwrap tr (WinCall.getElementsByTagName "text") o.getElementsByTagName fun tr =>
  Windows.qmUnwrap tr (WinCall.item 0) o.item0 fun tr =>
  Windows.qmUnwrap tr (WinCall.createTextNode t) o.createTextNodeTitle fun tr =>
  Windows.unwrapOpt tr WinCall.queryInterface o.queryInterfaceTitle fun tr =>
  Windows.qm tr (WinCall.appendChild 0 t) o.appendChild0 fun tr =>
  Windows.qmUnwrap tr (WinCall.item 1) o.item1 fun tr =>
  Windows.qmUnwrap tr (WinCall.createTextNode b) o.createTextNodeBody fun tr =>
  Windows.unwrapOpt tr WinCall.queryInterface o.queryInterfaceBody fun tr =>
  Windows.qm tr (WinCall.appendChild 1 b) o.appendChild1 fun tr =>
  Windows.qm tr WinCall.createToastNotification o.createToastNotification fun tr =>
  Windows.qmUnwrap tr (WinCall.createToastNotifierWithId windowsAppId)
    o.createToastNotifierWithId fun tr =>
  Windows.qm tr WinCall.showToast o.showCall fun tr =>
  (tr, ExecResult.ok)

/-- Whether a `Result<Option<T>>` oracle field is a fully successful outcome
(an `Ok` with a present payload). -/
def okSome : Except WError (Option Unit) → Bool
  | Except.ok (some _) => true
  | _ => false

/-- Whether a `Result<T>` oracle field is a successful outcome. -/
def okU : Except WError Unit → Bool
  | Except.ok _ => true
  | _ => false

/-- Whether an `Option<T>` oracle field is a present payload. -/
def someU : Option Unit → Bool
  | some _ => true
  | _ => false

/-- Every native call of `Windows::notify` succeeds with a present payload. -/
def WinOracle.allOk (o : WinOracle) : Bool :=
  okSome o.getTemplateContent && okSome o.getElementsByTagName && okSome o.item0 &&
  okSome o.createTextNodeTitle && someU o.queryInterfaceTitle && okU o.appendChild0 &&
  okSome o.item1 && okSome o.createTextNodeBody && someU o.queryInterfaceBody &&
  okU o.appendChild1 && okU o.createToastNotification && okSome o.createToastNotifierWithId &&
  okU o.showCall

/-- The native error value a `Result` oracle field holds, if any. -/
def exErr : Except WError α → List WError
  | Except.error e => [e]
  | Except.ok _ => []

/-- All native error values held by the oracle, in call order. -/
def WinOracle.errList (o : WinOracle) : List WError :=
  exErr o.getTemplateContent ++ exErr o.getElementsByTagName ++ exErr o.item0 ++
  exErr o.createTextNodeTitle ++ exErr o.appendChild0 ++ exErr o.item1 ++
  exErr o.createTextNodeBody ++ exErr o.appendChild1 ++ exErr o.createToastNotification ++
  exErr o.createToastNotifierWithId ++ exErr o.showCall

/-- Native calls the macOS backend issues, in the vocabulary of
`MacOs::notify` (src/src/lib.rs): bundle-identifier resolution for an
application name, application-identity installation for a bundle string, and
the notification send with title, subtitle, body and sound arguments. -/
inductive MacCall
  | getBundleIdentifier (appName : String)
  | setApplication (bundle : String)
  | sendNotification (title : String) (subtitle : Option String) (body : String)
      (sound : Option String)
deriving DecidableEq

/-- Results the environment returns for the three native calls of
`MacOs::notify`: `get_bundle_identifier` yields an `Option<String>`,
`set_application` a result whose error is an `ApplicationError`,
`send_notification` a result whose error is a `NotificationError`. -/
structure MacOracle where
  getBundleIdentifier : Option String
  setApplication : Except ApplicationError Unit
  sendNotification : Except NotificationError Unit

/-- The body of `MacOs::notify` (src/src/lib.rs): resolve the bundle
identifier of the fixed host name "Script Editor", install it as the process
application identity, send the notification with the callers title and body
and with subtitle and sound absent.  Each result is consumed by `.unwrap()`
in the source, so a failing native call panics; no branch of this function
produces an `ExecResult.err`. -/
def MacOs.notify (t b : String) (o : MacOracle) : List MacCall × ExecResult :=
  let tr1 := [MacCall.getBundleIdentifier "Script Editor"]
  match o.getBundleIdentifier with
  | none => (tr1, ExecResult.panicked)
  | some bundle =>
    let tr2 := tr1 ++ [MacCall.setApplication bundle]
    match o.setApplication with
    | Except.error _ => (tr2, ExecResult.panicked)
    | Except.ok _ =>
      let tr3 := tr2 ++ [MacCall.sendNotification t none b none]
      match o.sendNotification with
      | Except.error _ => (tr3, ExecResult.panicked)
      | Except.ok _ => (tr3, ExecResult.ok)

/-- The notification value `notify_rust::Notification` builds on Linux: the
embedding keeps the two fields the source sets. -/
structure Notification where
  summary : String
  body : String
deriving DecidableEq

/-- Builder start `Notification::new()`: notify-rust defaults both fields to
the empty string. -/
def Notification.new : Notification :=
  { summary := "", body := "" }

/-- Builder step `.summary(text)` of notify-rust (named `setSummary` here
because the Lean field projection takes the source method name). -/
def Notification.setSummary (n : Notification) (text : String) : Notification :=
  { n with summary := text }

/-- Builder step `.body(text)` of notify-rust (named `setBody` here because
the Lean field projection takes the source method name). -/
def Notification.setBody (n : Notification) (text : String) : Notification :=
  { n with body := text }

/-- Native call the Linux backend issues: showing a built notification on the
notification bus (`.show()` of notify-rust). -/
inductive LinCall
  | showNotification (n : Notification)
deriving DecidableEq

/-- Result the environment returns for the `.show()` call of
`Linux::notify`. -/
structure LinuxOracle where
  showResult : Except LError Unit

/-- The body of `Linux::notify` (src/src/lib.rs): build a notification whose
summary is the title and whose body is the body, request it be shown, and
propagate a failing show through `?` and `From<LError> for ErrorRepr`. -/
def Linux.notify (t b : String) (o : LinuxOracle) : List LinCall × ExecResult :=
  let n := (Notification.new.setSummary t).setBody b
  match o.showResult with
  | Except.error e => ([LinCall.showNotification n], ExecResult.err (ErrorRepr.Linux e))
  | Except.ok _ => ([LinCall.showNotification n], ExecResult.ok)

/-- The unit-struct backend values `Windows`, `MacOs`, `Linux` that each
`setup` returns (src/src/lib.rs): opaque handles carrying no resource. -/
inductive Handle
  | windows
  | macos
  | linux
deriving DecidableEq

/-- Any native call of any backend, for the dispatcher-level trace. -/
inductive NativeCall
  | win (c : WinCall)
  | mac (c : MacCall)
  | lin (c : LinCall)
deriving DecidableEq

/-- The body of `Windows::setup` (src/src/lib.rs): returns the unit struct
`Windows` and performs no native call, so its trace is empty. -/
def Windows.setup : List WinCall × Handle :=
  ([], Handle.windows)

/-- The body of `MacOs::setup` (src/src/lib.rs): returns the unit struct
`MacOs` and performs no native call, so its trace is empty. -/
def MacOs.setup : List MacCall × Handle :=
  ([], Handle.macos)

/-- The body of `Linux::setup` (src/src/lib.rs): returns the unit struct
`Linux` and performs no native call, so its trace is empty. -/
def Linux.setup : List LinCall × Handle :=
  ([], Handle.linux)

/-- Results of every native call any backend could make; the compiled-in
backend reads only its own component. -/
structure Oracle where
  win : WinOracle
  mac : MacOracle
  lin : LinuxOracle

/-- The `CurrPlatform::setup()` call resolved per build (the `CurrPlatform`
type alias of src/src/lib.rs selects the backend by `cfg`). -/
def setup : Os → List NativeCall × Handle
  | Os.windows => ((Windows.setup).1.map NativeCall.win, (Windows.setup).2)
  | Os.macos => ((MacOs.setup).1.map NativeCall.mac, (MacOs.setup).2)
  | Os.linux => ((Linux.setup).1.map NativeCall.lin, (Linux.setup).2)

/-- The `CurrPlatform::notify(msg_title, msg_body)` call resolved per build
(the `CurrPlatform` type alias of src/src/lib.rs selects the backend by
`cfg`; there is no runtime branching in the source, `os` is the build
constant). -/
def backendNotify (os : Os) (t b : String) (o : Oracle) : List NativeCall × ExecResult :=
  match os with
  | Os.windows => ((Windows.notify t b o.win).1.map NativeCall.win, (Windows.notify t b o.win).2)
  | Os.macos => ((MacOs.notify t b o.mac).1.map NativeCall.mac, (MacOs.notify t b o.mac).2)
  | Os.linux => ((Linux.notify t b o.lin).1.map NativeCall.lin, (Linux.notify t b o.lin).2)

/-- Events of one public `notify` invocation.  `setupCall` and `teardownCall`
record lifecycle operations of the `Platform` contract; the source trait
(src/src/lib.rs) declares `setup` and `notify` only and no implementation
defines or invokes a teardown, so `teardownCall` exists here solely to state
the lifecycle-pairing claim the spec makes, and no definition of this
embedding ever emits it. -/
inductive Event
  | setupCall (os : Os)
  | teardownCall (os : Os)
  | native (c : NativeCall)
deriving DecidableEq

/-- Outcome of the public `notify`: the two values of its
`Result<(), Error>` return type, or the propagated panic. -/
inductive NotifyResult
  | ok
  | err (e : Error)
  | panicked
deriving DecidableEq

/-- The public `pub fn notify` of src/src/lib.rs: calls `CurrPlatform::setup()`
discarding the handle, then `CurrPlatform::notify(msg_title, msg_body)`
wrapping a returned `ErrorRepr` into `Error` via `.map_err(Error)?`, then
returns `Ok(())`. -/
def notify (os : Os) (t b : String) (o : Oracle) : List Event × NotifyResult :=
  let s := setup os
  let r := backendNotify os t b o
  (Event.setupCall os :: (s.1 ++ r.1).map Event.native,
    match r.2 with
    | ExecResult.ok => NotifyResult.ok
    | ExecResult.err e => NotifyResult.err (Error.mk e)
    | ExecResult.panicked => NotifyResult.panicked)

/-- Whether an event is a `setup` lifecycle call. -/
def Event.isSetup : Event → Bool
  | Event.setupCall _ => true
  | _ => false

/-- Whether an event is a `teardown` lifecycle call. -/
def Event.isTeardown : Event → Bool
  | Event.teardownCall _ => true
  | _ => false

/-- Number of `setup` lifecycle calls in a trace. -/
def setupCount (tr : List Event) : Nat :=
  (tr.filter Event.isSetup).length

/-- Number of `teardown` lifecycle calls in a trace. -/
def teardownCount (tr : List Event) : Nat :=
  (tr.filter Event.isTeardown).length

/-- The public items the crate exports (src/src/lib.rs): the type
`pub struct Error` and the operation `pub fn notify`; nothing else in the
file is `pub`. -/
inductive PublicItem
  | errorType
  | notifyFn
deriving DecidableEq

/-- Whether a public item is an operation (a function) rather than a type. -/
def PublicItem.isOperation : PublicItem → Bool
  | PublicItem.errorType => false
  | PublicItem.notifyFn => true

/-- An environment in which every native call of every backend succeeds. -/
def okOracle : Oracle :=
  { win :=
      { getTemplateContent := Except.ok (some ())
        getElementsByTagName := Except.ok (some ())
        item0 := Except.ok (some ())
        createTextNodeTitle := Except.ok (some ())
        queryInterfaceTitle := some ()
        appendChild0 := Except.ok ()
        item1 := Except.ok (some ())
        createTextNodeBody := Except.ok (some ())
        queryInterfaceBody := some ()
        appendChild1 := Except.ok ()
        createToastNotification := Except.ok ()
        createToastNotifierWithId := Except.ok (some ())
        showCall := Except.ok () }
    mac :=
      { getBundleIdentifier := some "com.apple.ScriptEditor2"
        setApplication := Except.ok ()
        sendNotification := Except.ok () }
    lin := { showResult := Except.ok () } }

/-- An environment in which the macOS application-identity installation fails
with a native `ApplicationError` while the other calls would succeed. -/
def macAppErrOracle : MacOracle :=
  { getBundleIdentifier := some "com.apple.ScriptEditor2"
    setApplication := Except.error { msg := "Could not set application" }
    sendNotification := Except.ok () }

theorem okSome_eq_true {r : Except WError (Option Unit)} (h : okSome r = true) :
    r = Except.ok (some ()) := by
  match r with
  | Except.error e => simp [okSome] at h
  | Except.ok none => simp [okSome] at h
  | Except.ok (some ()) => rfl

theorem okU_eq_true {r : Except WError Unit} (h : okU r = true) :
    r = Except.ok () := by
  match r with
  | Except.error e => simp [okU] at h
  | Except.ok () => rfl

theorem someU_eq_true {r : Option Unit} (h : someU r = true) :
    r = some () := by
  match r with
  | none => simp [someU] at h
  | some () => rfl

theorem filter_native_isSetup (l : List NativeCall) :
    (l.map Event.native).filter Event.isSetup = [] := by
  induction l with
  | nil => rfl
  | cons c cs ih => simp [Event.isSetup, ih]

theorem filter_native_isTeardown (l : List NativeCall) :
    (l.map Event.native).filter Event.isTeardown = [] := by
  induction l with
  | nil => rfl
  | cons c cs ih => simp [Event.isTeardown, ih]

/-- Claim C2: for every wrapped native error, the Display rendering of the
public `Error` equals the underlying native error Display message for the
Linux variant and for both macOS sub-kinds; the Windows native type has no
message form, and the rendering is its fixed descriptive Debug string. -/
theorem error_display_renders_native_message (el : LError) (ea : ApplicationError)
    (en : NotificationError) (ew : WError) :
    Error.fmt (Error.mk (ErrorRepr.Linux el)) = el.msg ∧
    Error.fmt (Error.mk (ErrorRepr.MacOs (MacOsError.AppErr ea))) = ea.msg ∧
    Error.fmt (Error.mk (ErrorRepr.MacOs (MacOsError.NotErr en))) = en.msg ∧
    Error.fmt (Error.mk (ErrorRepr.Windows ew)) = WError.debugFmt ew :=
  ⟨rfl, rfl, rfl, rfl⟩

/-- Claim C5: for every backend, `setup` is total with no failure path (it is
a pure function into `Handle`, with no error or panic outcome), performs no
native call (its trace is empty, hence a no-op), and returns the backend
handle value of the compiled-in platform. -/
theorem setup_always_succeeds (os : Os) :
    (setup os).1 = [] ∧
    setup Os.windows = ([], Handle.windows) ∧
    setup Os.macos = ([], Handle.macos) ∧
    setup Os.linux = ([], Handle.linux) := by
  refine ⟨?_, rfl, rfl, rfl⟩
  cases os <;> rfl

/-- Claim C7: for every (title, body) pair, when the three native calls
succeed, `MacOs::notify` resolves the bundle identifier of the fixed host
name "Script Editor", installs the resolved bundle as the application
identity, and sends the notification with that title and body and with
subtitle and sound passed as absent, in that order. -/
theorem macos_notify_steps (t b : String) (o : MacOracle) (bundle : String)
    (hb : o.getBundleIdentifier = some bundle)
    (ha : o.setApplication = Except.ok ())
    (hs : o.sendNotification = Except.ok ()) :
    MacOs.notify t b o =
      ([MacCall.getBundleIdentifier "Script Editor",
        MacCall.setApplication bundle,
        MacCall.sendNotification t none b none], ExecResult.ok) := by
  simp [MacOs.notify, hb, ha, hs]

/-- Witness for claim C7 at the example scenario of the spec, in an
environment where every native call succeeds. -/
theorem macos_notify_steps_witness :
    MacOs.notify "Hello" "World! 🌍" okOracle.mac =
      ([MacCall.getBundleIdentifier "Script Editor",
        MacCall.setApplication "com.apple.ScriptEditor2",
        MacCall.sendNotification "Hello" none "World! 🌍" none], ExecResult.ok) :=
  macos_notify_steps "Hello" "World! 🌍" okOracle.mac "com.apple.ScriptEditor2" rfl rfl rfl

/-- Claim C8: for every (title, body) pair, `Linux::notify` shows a
notification whose summary is the title and whose body is the body; it
returns the wrapped native error exactly when the show call fails, succeeds
exactly when the show call succeeds, and the rendering of the wrapped error
carries the native error message. -/
theorem linux_notify_contract (t b : String) (o : LinuxOracle) :
    (Linux.notify t b o).1 =
      [LinCall.showNotification { summary := t, body := b }] ∧
    ((Linux.notify t b o).2 = ExecResult.ok ↔ o.showResult = Except.ok ()) ∧
    (∀ e, (Linux.notify t b o).2 = ExecResult.err (ErrorRepr.Linux e) ↔
      o.showResult = Except.error e) ∧
    (∀ e, Error.fmt (Error.mk (ErrorRepr.Linux e)) = e.msg) := by
  obtain ⟨sr⟩ := o
  rcases sr with e | u
  · refine ⟨rfl, by simp [Linux.notify], fun e2 => ?_, fun e2 => rfl⟩
    simp [Linux.notify]
  · cases u
    refine ⟨rfl, by simp [Linux.notify], fun e2 => ?_, fun e2 => rfl⟩
    simp [Linux.notify]

/-- Claim C9: the public `notify` is a faithful wrapper of the compiled-in
backend: it returns success exactly when the backend body does, it returns
the backend error value unchanged, wrapped once in `Error`, exactly when the
backend body returns that error, and it panics exactly when the backend body
panics. -/
theorem notify_refines_backend (os : Os) (t b : String) (o : Oracle) :
    ((notify os t b o).2 = NotifyResult.ok ↔
      (backendNotify os t b o).2 = ExecResult.ok) ∧
    (∀ e, (notify os t b o).2 = NotifyResult.err (Error.mk e) ↔
      (backendNotify os t b o).2 = ExecResult.err e) ∧
    ((notify os t b o).2 = NotifyResult.panicked ↔
      (backendNotify os t b o).2 = ExecResult.panicked) := by
  rcases h : (backendNotify os t b o).2 with _ | e | _ <;>
    simp [notify, h]

/-- Claim C10: on the macOS build the error branch of the public `notify` is
unreachable: every normal return of `MacOs::notify` is `Ok(())` because each
fallible native call is consumed by `.unwrap()`, so a native failure panics
instead of producing an `Err`, and the public `notify` on macOS never returns
an error value. -/
theorem macos_notify_never_errs (t b : String) (o : Oracle) :
    ((MacOs.notify t b o.mac).2 = ExecResult.ok ∨
      (MacOs.notify t b o.mac).2 = ExecResult.panicked) ∧
    ((notify Os.macos t b o).2 = NotifyResult.ok ∨
      (notify Os.macos t b o).2 = NotifyResult.panicked) := by
  rcases o with ⟨w, m, l⟩
  rcases m with ⟨gb, sa, sn⟩
  rcases gb with _ | bundle <;> rcases sa with ea | ua <;> rcases sn with en | un <;>
    simp [MacOs.notify, notify, backendNotify]

/-- Claim C1 (code evaluation at the failing input): in an environment where
the application-identity installation fails with a native
`ApplicationError`, `MacOs::notify` panics at the `.unwrap()` after
performing the first two native calls; it does not return the tagged
sub-error `ErrorRepr::MacOs(MacOsError::AppErr(..))` that the unused
`From<ApplicationError> for ErrorRepr` conversion would produce. -/
theorem macos_native_failure_panics :
    MacOs.notify "Hello" "World" macAppErrOracle =
      ([MacCall.getBundleIdentifier "Script Editor",
        MacCall.setApplication "com.apple.ScriptEditor2"], ExecResult.panicked) :=
  rfl

/-- Claim C3 (counterexample): on the Windows build, which the spec names as
the backend with a resource handle, a successful `notify` invocation performs
one `setup` call and zero `teardown` calls, so it is false that exactly one
teardown call follows exactly one setup call. -/
theorem notify_teardown_pairing_cex :
    ¬ (setupCount (notify Os.windows "Hello" "World" okOracle).1 = 1 ∧
       teardownCount (notify Os.windows "Hello" "World" okOracle).1 = 1) := by
  decide

/-- Claim C3 (amended): no backend allocates a resource handle (`setup`
returns a unit-struct value) and the `Platform` contract of the source
declares no teardown operation, so every `notify` invocation, on every
backend and on success, failure and panic paths alike, performs exactly one
`setup` call and zero `teardown` calls. -/
theorem notify_setup_once_no_teardown (os : Os) (t b : String) (o : Oracle) :
    setupCount (notify os t b o).1 = 1 ∧ teardownCount (notify os t b o).1 = 0 := by
  constructor
  · simp [notify, setupCount, List.filter, Event.isSetup, filter_native_isSetup]
  · simp [notify, teardownCount, List.filter, Event.isTeardown, filter_native_isTeardown]

/-- Claim C4: the public surface is the single operation `notify` (the only
other public item is the `Error` type, which is not an operation), and on
every build and input `notify` either returns success carrying no value,
returns the public `Error` type, or propagates a panic of the backend; the
`os` argument models the compile-time target constant, so there is no runtime
platform branching on caller input, and `notify` takes no configuration
beyond the two text arguments. -/
theorem public_surface_single_operation (os : Os) (t b : String) (o : Oracle) :
    (∀ p : PublicItem, p.isOperation = true ↔ p = PublicItem.notifyFn) ∧
    ((notify os t b o).2 = NotifyResult.ok ∨
      (∃ e : ErrorRepr, (notify os t b o).2 = NotifyResult.err (Error.mk e)) ∨
      (notify os t b o).2 = NotifyResult.panicked) := by
  constructor
  · intro p
    cases p <;> simp [PublicItem.isOperation]
  · rcases h : (backendNotify os t b o).2 with _ | e | _ <;> simp [notify, h]

/-- Claim C6: for every (title, body) pair, `Windows::notify` performs, in
order, template retrieval of ToastText02, lookup of the text elements,
insertion of a node carrying the title into slot 0 and of a node carrying the
body into slot 1 (each via item lookup, node creation, interface query and
append), toast creation, notifier creation under the fixed application id,
and show; when every native call returns an error-free, non-null result the
run is exactly that call list and succeeds, a run that returns an error
returns a single backend error wrapping one of the native error values the
environment produced, and a run can only succeed when no native call
failed. -/
theorem windows_notify_contract (t b : String) (o : WinOracle) :
    (o.allOk = true →
      Windows.notify t b o =
        ([WinCall.getTemplateContent ToastTemplateType.toastText02,
          WinCall.getElementsByTagName "text",
          WinCall.item 0, WinCall.createTextNode t, WinCall.queryInterface,
          WinCall.appendChild 0 t,
          WinCall.item 1, WinCall.createTextNode b, WinCall.queryInterface,
          WinCall.appendChild 1 b,
          WinCall.createToastNotification,
          WinCall.createToastNotifierWithId windowsAppId,
          WinCall.showToast], ExecResult.ok)) ∧
    (∀ tr r, Windows.notify t b o = (tr, ExecResult.err r) →
      ∃ e, r = ErrorRepr.Windows e ∧ e ∈ o.errList) ∧
    (∀ tr, Windows.notify t b o = (tr, ExecResult.ok) → o.allOk = true) := by
  obtain ⟨f1, f2, f3, f4, f5, f6, f7, f8, f9, f10, f11, f12, f13⟩ := o
  refine ⟨?_, ?_, ?_⟩
  · intro hok
    simp only [WinOracle.allOk, Bool.and_eq_true] at hok
    obtain ⟨⟨⟨⟨⟨⟨⟨⟨⟨⟨⟨⟨h1, h2⟩, h3⟩, h4⟩, h5⟩, h6⟩, h7⟩, h8⟩, h9⟩, h10⟩, h11⟩, h12⟩, h13⟩ := hok
    obtain rfl := okSome_eq_true h1
    obtain rfl := okSome_eq_true h2
    obtain rfl := okSome_eq_true h3
    obtain rfl := okSome_eq_true h4
    obtain rfl := someU_eq_true h5
    obtain rfl := okU_eq_true h6
    obtain rfl := okSome_eq_true h7
    obtain rfl := okSome_eq_true h8
    obtain rfl := someU_eq_true h9
    obtain rfl := okU_eq_true h10
    obtain rfl := okU_eq_true h11
    obtain rfl := okSome_eq_true h12
    obtain rfl := okU_eq_true h13
    rfl
  · intro tr r h
    simp only [Windows.notify, Windows.qmUnwrap, Windows.qm, Windows.unwrapOpt] at h
    repeat' split at h
    all_goals simp_all [WinOracle.errList, exErr]
    all_goals exact ⟨_, h.2.symm, Or.inl rfl⟩
  · intro tr h
    simp only [Windows.notify, Windows.qmUnwrap, Windows.qm, Windows.unwrapOpt] at h
    repeat' split at h
    all_goals simp_all [WinOracle.allOk, okSome, okU, someU]

end Notifica
